import Mathlib

/-!
Verification of the coordinate-system and C-API layer of the PROJ
ISO19111 implementation (src/coordinatesystem.cpp, src/c_api.cpp).

Shallow embedding: each C++ function under scrutiny is translated into a
Lean definition of the same name (namespaced under `PROJ`).  Classes that
live in translation units outside this repository snapshot (UnitOfMeasure,
WKTFormatter, Ellipsoid, the WKT/PROJ parsers) are modelled from the
natural-language specification; each such definition carries a doc comment
starting with `Modelled from the spec:`.
-/

namespace PROJ

/-! ## Units of measure -/

/-- Unit kinds, following the spec vocabulary
`kind ∈ {length, angle, scale, time, parametric, none}` and the
`common::UnitOfMeasure::Type` enumerators used by the source
(`Type::NONE`, `Type::LINEAR`, `Type::ANGULAR`, ...). -/
inductive UnitType where
  | NONE
  | LINEAR
  | ANGULAR
  | SCALE
  | TIME
  | PARAMETRIC
deriving DecidableEq, Repr

/-- Modelled from the spec: `UnitOfMeasure = { name, conversion_to_SI,
kind }` (spec §3.1).  The defining translation unit (common.cpp) is not
part of this source snapshot.  Conversion factors are exact rationals
standing for the C++ double constants. -/
structure UnitOfMeasure where
  name : String
  toSI : ℚ
  type : UnitType
deriving DecidableEq, Repr

/-- The metre, conversion factor 1 (spec §3.1 canonical instances). -/
def UnitOfMeasure.METRE : UnitOfMeasure := ⟨"metre", 1, .LINEAR⟩

/-- The degree; the factor is the double constant `0.0174532925199433`
used by the library for π/180. -/
def UnitOfMeasure.DEGREE : UnitOfMeasure := ⟨"degree", 0.0174532925199433, .ANGULAR⟩

/-- The grad; the factor is the double constant for π/200. -/
def UnitOfMeasure.GRAD : UnitOfMeasure := ⟨"grad", 0.015707963267948967, .ANGULAR⟩

/-- The default-constructed unit (`common::UnitOfMeasure{}`), of type
`NONE`. -/
def UnitOfMeasure.NONE : UnitOfMeasure := ⟨"", 1, .NONE⟩

/-- Modelled from the spec: unit equality (`UnitOfMeasure::operator==`,
common.cpp, not in this snapshot) "is by kind + numeric conversion factor
— not by name" (spec §3.1); over exact rationals the floating-point
tolerance collapses to exact equality. -/
def uomEq (a b : UnitOfMeasure) : Bool :=
  a.type == b.type && a.toSI == b.toSI

/-- A measure: value plus unit (`common::Measure`). -/
structure Measure where
  value : ℚ
  unit : UnitOfMeasure
deriving DecidableEq, Repr

/-- Translation of `Measure::getSIValue()`: value times the unit conversion
factor. -/
def Measure.getSIValue (m : Measure) : ℚ := m.value * m.unit.toSI

/-! ## Identifiers -/

/-- An object identifier: optional codespace (authority) plus code
(`metadata::Identifier`, modelled with exactly the two fields the C API
accessors read). -/
structure Identifier where
  codeSpace : Option String
  code : String
deriving DecidableEq, Repr

/-! ## Axis directions -/

/-- The `cs::AxisDirection` code list.  The constant set is declared in
include/proj/coordinatesystem.hpp lines 56-95; one constructor per
declared constant. -/
inductive AxisDirection where
  | NORTH
  | NORTH_NORTH_EAST
  | NORTH_EAST
  | EAST_NORTH_EAST
  | EAST
  | EAST_SOUTH_EAST
  | SOUTH_EAST
  | SOUTH_SOUTH_EAST
  | SOUTH
  | SOUTH_SOUTH_WEST
  | SOUTH_WEST
  | WEST_SOUTH_WEST
  | WEST
  | WEST_NORTH_WEST
  | NORTH_WEST
  | NORTH_NORTH_WEST
  | UP
  | DOWN
  | GEOCENTRIC_X
  | GEOCENTRIC_Y
  | GEOCENTRIC_Z
  | COLUMN_POSITIVE
  | COLUMN_NEGATIVE
  | ROW_POSITIVE
  | ROW_NEGATIVE
  | DISPLAY_RIGHT
  | DISPLAY_LEFT
  | DISPLAY_UP
  | DISPLAY_DOWN
  | FORWARD
  | AFT
  | PORT
  | STARBOARD
  | CLOCKWISE
  | COUNTER_CLOCKWISE
  | TOWARDS
  | AWAY_FROM
  | FUTURE
  | PAST
  | UNSPECIFIED
deriving DecidableEq, Repr

/-- Modelled from the spec: the registration string of each direction
(spec §3.1 direction vocabulary, WKT2 spelling).  The registrations live
in coordinatesystem_internal.hpp, which is not part of this snapshot;
`CodeList::toString()` returns this string. -/
def AxisDirection.toString : AxisDirection → String
  | .NORTH => "north"
  | .NORTH_NORTH_EAST => "northNorthEast"
  | .NORTH_EAST => "northEast"
  | .EAST_NORTH_EAST => "eastNorthEast"
  | .EAST => "east"
  | .EAST_SOUTH_EAST => "eastSouthEast"
  | .SOUTH_EAST => "southEast"
  | .SOUTH_SOUTH_EAST => "southSouthEast"
  | .SOUTH => "south"
  | .SOUTH_SOUTH_WEST => "southSouthWest"
  | .SOUTH_WEST => "southWest"
  | .WEST_SOUTH_WEST => "westSouthWest"
  | .WEST => "west"
  | .WEST_NORTH_WEST => "westNorthWest"
  | .NORTH_WEST => "northWest"
  | .NORTH_NORTH_WEST => "northNorthWest"
  | .UP => "up"
  | .DOWN => "down"
  | .GEOCENTRIC_X => "geocentricX"
  | .GEOCENTRIC_Y => "geocentricY"
  | .GEOCENTRIC_Z => "geocentricZ"
  | .COLUMN_POSITIVE => "columnPositive"
  | .COLUMN_NEGATIVE => "columnNegative"
  | .ROW_POSITIVE => "rowPositive"
  | .ROW_NEGATIVE => "rowNegative"
  | .DISPLAY_RIGHT => "displayRight"
  | .DISPLAY_LEFT => "displayLeft"
  | .DISPLAY_UP => "displayUp"
  | .DISPLAY_DOWN => "displayDown"
  | .FORWARD => "forward"
  | .AFT => "aft"
  | .PORT => "port"
  | .STARBOARD => "starboard"
  | .CLOCKWISE => "clockwise"
  | .COUNTER_CLOCKWISE => "counterClockwise"
  | .TOWARDS => "towards"
  | .AWAY_FROM => "awayFrom"
  | .FUTURE => "future"
  | .PAST => "past"
  | .UNSPECIFIED => "unspecified"

/-- Translation of `internal::toupper` (internal.hpp line 115): uppercase
every character. -/
def toupperStr (s : String) : String := s.map Char.toUpper

/-- Modelled from the spec: the WKT1 direction keyword registry
(`AxisDirectionWKT1`, registrations in coordinatesystem_internal.hpp,
not in this snapshot).  The WKT1 grammar admits exactly these direction
keywords; `AxisDirectionWKT1::NORTH` is the string `"NORTH"` and
`AxisDirectionWKT1::OTHER` the string `"OTHER"`. -/
def axisDirectionWKT1Keys : List String :=
  ["NORTH", "SOUTH", "EAST", "WEST", "UP", "DOWN", "OTHER"]

/-- Translation of `AxisDirectionWKT1::valueOf` (coordinatesystem.cpp lines
972-977): registry lookup, `none` when the string is not a WKT1 direction. -/
def axisDirectionWKT1ValueOf (s : String) : Option String :=
  if s ∈ axisDirectionWKT1Keys then some s else none

/-! ## Meridian and coordinate system axis -/

/-- Translation of `cs::Meridian`: an identified object with a longitude. -/
structure Meridian where
  name : String
  identifiers : List Identifier
  longitude : Measure
deriving DecidableEq, Repr

/-- Translation of `cs::CoordinateSystemAxis` (coordinatesystem.cpp lines
124-132 plus
the IdentifiedObject base): name, identifiers, abbreviation,
direction, unit, optional range, optional meridian. -/
structure CoordinateSystemAxis where
  name : String
  identifiers : List Identifier
  abbreviation : String
  direction : AxisDirection
  unit : UnitOfMeasure
  minimumValue : Option ℚ
  maximumValue : Option ℚ
  meridian : Option Meridian
deriving DecidableEq, Repr

/-- Translation of `util::IComparable::Criterion` (spec §3.3). -/
inductive Criterion where
  | STRICT
  | EQUIVALENT
  | EQUIVALENT_IGNORING_AXIS_ORDER
deriving DecidableEq, Repr

/-- Modelled from the spec: `IdentifiedObject::isEquivalentTo` under
STRICT compares "byte-exact ids, names" (spec §3.3); the defining
translation unit (common.cpp) is not in this snapshot.  Only reached by
the STRICT branch of the axis comparison below. -/
def identifiedObjectIsEquivalentTo (n1 : String) (i1 : List Identifier)
    (n2 : String) (i2 : List Identifier) : Bool :=
  n1 == n2 && i1 == i2

/-- Translation of `CoordinateSystemAxis::isEquivalentTo`
(coordinatesystem.cpp lines 370-393).  The C++ receives `other` as an `IComparable*` and returns
false when the dynamic cast to `CoordinateSystemAxis` fails; here both
arguments are axes, so the cast branch is not modelled.  For approximate
comparison only axis direction and unit are checked; STRICT additionally
checks the identified-object data and the abbreviation. -/
def CoordinateSystemAxis.isEquivalentTo (a other : CoordinateSystemAxis)
    (criterion : Criterion) : Bool :=
  if !(a.direction == other.direction && uomEq a.unit other.unit) then
    false
  else
    if criterion == .STRICT then
      if !(identifiedObjectIsEquivalentTo a.name a.identifiers
            other.name other.identifiers) then
        false
      else if a.abbreviation != other.abbreviation then
        false
      else
        true
    else
      true

/-! ## Coordinate system factories -/

/-- The slice of `util::PropertyMap` the factories consult: the factories
forward it to `setProperties`, which records the object name. -/
structure PropertyMap where
  name : String
deriving DecidableEq, Repr

/-- Translation of `cs::CartesianCS`: a coordinate system with an axis list
(coordinatesystem.cpp lines 398-403, 774-775). -/
structure CartesianCS where
  name : String
  identifiers : List Identifier
  axisList : List CoordinateSystemAxis
deriving DecidableEq, Repr

/-- Translation of `CartesianCS::create`, 2-axis overload
(coordinatesystem.cpp lines
792-799): bundles the two axes, sets the properties, and unconditionally
returns the new object — no validation of units or directions is
performed. -/
def CartesianCS.create (properties : PropertyMap)
    (axis1 axis2 : CoordinateSystemAxis) : CartesianCS :=
  { name := properties.name, identifiers := [], axisList := [axis1, axis2] }

/-- Translation of `CartesianCS::create`, 3-axis overload
(coordinatesystem.cpp lines
811-819): same shape with three axes, again with no validation. -/
def CartesianCS.create3 (properties : PropertyMap)
    (axis1 axis2 axis3 : CoordinateSystemAxis) : CartesianCS :=
  { name := properties.name, identifiers := [],
    axisList := [axis1, axis2, axis3] }

/-- Translation of `cs::EllipsoidalCS`. -/
structure EllipsoidalCS where
  name : String
  identifiers : List Identifier
  axisList : List CoordinateSystemAxis
deriving DecidableEq, Repr

/-- Translation of `EllipsoidalCS::create`, 2-axis overload
(coordinatesystem.cpp lines
585-593): bundles the two axes and unconditionally returns the new
object — no validation of units or directions is performed. -/
def EllipsoidalCS.create (properties : PropertyMap)
    (axis1 axis2 : CoordinateSystemAxis) : EllipsoidalCS :=
  { name := properties.name, identifiers := [], axisList := [axis1, axis2] }

/-- Translation of `EllipsoidalCS::create`, 3-axis overload
(coordinatesystem.cpp lines
605-614): same with three axes, no validation. -/
def EllipsoidalCS.create3 (properties : PropertyMap)
    (axis1 axis2 axis3 : CoordinateSystemAxis) : EllipsoidalCS :=
  { name := properties.name, identifiers := [],
    axisList := [axis1, axis2, axis3] }

/-! ## Ellipsoidal axis order -/

/-- Translation of `EllipsoidalCS::AxisOrder` (the return values of
`axisOrder()`). -/
inductive AxisOrder where
  | LAT_NORTH_LONG_EAST
  | LAT_NORTH_LONG_EAST_HEIGHT_UP
  | LONG_EAST_LAT_NORTH
  | LONG_EAST_LAT_NORTH_HEIGHT_UP
  | OTHER
deriving DecidableEq, Repr

/-- Translation of `EllipsoidalCS::axisOrder` (coordinatesystem.cpp lines
694-714).
The C++ unconditionally reads `axisList[0]` and `axisList[1]` (every
factory-built ellipsoidal CS has 2 or 3 axes); the fallback match arm for
shorter lists is outside the reachable states.  `size() == 2` corresponds
to an empty tail; otherwise the third element is inspected, exactly as
`l_axisList[2]` is. -/
def EllipsoidalCS.axisOrder (cs : EllipsoidalCS) : AxisOrder :=
  match cs.axisList with
  | a0 :: a1 :: rest =>
    if a0.direction = .NORTH ∧ a1.direction = .EAST then
      match rest with
      | [] => .LAT_NORTH_LONG_EAST
      | a2 :: _ =>
        if a2.direction = .UP then .LAT_NORTH_LONG_EAST_HEIGHT_UP
        else .OTHER
    else if a0.direction = .EAST ∧ a1.direction = .NORTH then
      match rest with
      | [] => .LONG_EAST_LAT_NORTH
      | a2 :: _ =>
        if a2.direction = .UP then .LONG_EAST_LAT_NORTH_HEIGHT_UP
        else .OTHER
    else .OTHER
  | _ => .OTHER

/-! ## Concrete axes used by witnesses and counterexamples -/

/-- A Latitude axis in degrees (as built by
`EllipsoidalCS::createLatitudeLongitude`, lines 626-634). -/
def axLatDeg : CoordinateSystemAxis :=
  ⟨"Latitude", [], "lat", .NORTH, UnitOfMeasure.DEGREE, none, none, none⟩

/-- A Longitude axis in degrees. -/
def axLonDeg : CoordinateSystemAxis :=
  ⟨"Longitude", [], "lon", .EAST, UnitOfMeasure.DEGREE, none, none, none⟩

/-- An ellipsoidal-height axis in metres (up). -/
def axHeightMetre : CoordinateSystemAxis :=
  ⟨"Ellipsoidal height", [], "h", .UP, UnitOfMeasure.METRE, none, none, none⟩

/-- An Easting axis in metres. -/
def axEastMetre : CoordinateSystemAxis :=
  ⟨"Easting", [], "E", .EAST, UnitOfMeasure.METRE, none, none, none⟩

/-- A Northing axis in metres. -/
def axNorthMetre : CoordinateSystemAxis :=
  ⟨"Northing", [], "N", .NORTH, UnitOfMeasure.METRE, none, none, none⟩

/-! ## WKT trees

The C++ `WKTFormatter` (io.cpp, not in this snapshot) is a streaming
printer driven by `startNode`/`add`/`endNode` calls.  Since every export
routine under scrutiny opens and closes nodes in a well-nested way, the
stream is modelled as the tree of nodes it prints: each `startNode(k)` /
`endNode()` pair becomes a `node k children` entry and each `add` becomes
a value entry. -/

/-- A WKT output entry: a quoted string value, a bare keyword value, a
numeric value, or a sub-node with a keyword and children. -/
inductive WKTEntry where
  | quoted (s : String)
  | str (s : String)
  | num (q : ℚ)
  | node (keyword : String) (children : List WKTEntry)
deriving Repr

/-- WKT generations (`WKTFormatter::Version`). -/
inductive WKTVersion where
  | WKT1
  | WKT2
deriving DecidableEq, Repr

/-- Formatter conventions (`WKTFormatter::Convention`, the set switched
over by `proj_obj_as_wkt`, c_api.cpp lines 410-427). -/
inductive WKTConvention where
  | WKT2_2018
  | WKT2_2018_SIMPLIFIED
  | WKT2_2015
  | WKT2_2015_SIMPLIFIED
  | WKT1_GDAL
deriving DecidableEq, Repr

/-- The formatter state consulted by the coordinate-system exports:
version, 2018-keyword flag, and the output switches read through
`outputAxisOrder()`, `outputCSUnitOnlyOnceIfSame()`, `outputId()`. -/
structure WKTFormatterConfig where
  version : WKTVersion
  use2018Keywords : Bool
  outputAxisOrder : Bool
  outputCSUnitOnlyOnceIfSame : Bool
  outputId : Bool
deriving DecidableEq, Repr

/-- Modelled from the spec: `WKTFormatter::create(convention)` (io.cpp,
not in this snapshot).  The version and 2018-keyword flag follow the
convention name; `ORDER[i]` is emitted "in WKT2 when the CS has > 1 axis"
(spec §6.1), so `outputAxisOrder` holds exactly for the WKT2 versions;
"simplified variants drop redundant UNIT children when all axes share a
unit, and omit ID children on interior nodes" (spec §4.6), giving the
remaining two switches. -/
def WKTFormatter.create : WKTConvention → WKTFormatterConfig
  | .WKT2_2018 => ⟨.WKT2, true, true, false, true⟩
  | .WKT2_2018_SIMPLIFIED => ⟨.WKT2, true, true, true, false⟩
  | .WKT2_2015 => ⟨.WKT2, false, true, false, true⟩
  | .WKT2_2015_SIMPLIFIED => ⟨.WKT2, false, true, true, false⟩
  | .WKT1_GDAL => ⟨.WKT1, false, false, false, true⟩

/-- The WKT2 unit keyword selected from the unit kind (spec §6.1:
`LENGTHUNIT / ANGLEUNIT / SCALEUNIT / TIMEUNIT`). -/
def UnitOfMeasure.wkt2Keyword (u : UnitOfMeasure) : String :=
  match u.type with
  | .LINEAR => "LENGTHUNIT"
  | .ANGULAR => "ANGLEUNIT"
  | .SCALE => "SCALEUNIT"
  | .TIME => "TIMEUNIT"
  | _ => "UNIT"

/-- Modelled from the spec: `UnitOfMeasure::_exportToWKT` (common.cpp,
not in this snapshot) emits `LENGTHUNIT/ANGLEUNIT/SCALEUNIT/TIMEUNIT
["name", factor]` in WKT2 and `UNIT["name", factor]` in WKT1 (spec §6.1);
the optional keyword argument (passed by the meridian export) overrides
the kind-derived WKT2 keyword.  Identifier children are not modelled on
unit nodes (no claim consults them). -/
def UnitOfMeasure.exportToWKT (isWKT2 : Bool) (u : UnitOfMeasure)
    (keyword : Option String) : WKTEntry :=
  .node (if isWKT2 then keyword.getD u.wkt2Keyword else "UNIT")
    [.quoted u.name, .num u.toSI]

/-- Modelled from the spec: `IdentifiedObject::formatID` (common.cpp, not
in this snapshot) emits one identifier node per identifier:
`ID[codespace, code]` in WKT2, `AUTHORITY["codespace", "code"]` in WKT1
(spec §6.1). -/
def formatIDNodes (isWKT2 : Bool) (ids : List Identifier) : List WKTEntry :=
  ids.map fun i =>
    if isWKT2 then .node "ID" [.quoted (i.codeSpace.getD ""), .str i.code]
    else .node "AUTHORITY" [.quoted (i.codeSpace.getD ""), .quoted i.code]

/-- Translation of `Meridian::_exportToWKT` (coordinatesystem.cpp lines
108-118): a MERIDIAN node holding the longitude value, its angular unit,
and the identifiers when ids are output. -/
def Meridian.exportToWKT (isWKT2 : Bool) (outputId : Bool)
    (m : Meridian) : WKTEntry :=
  .node "MERIDIAN"
    ([.num m.longitude.value,
      m.longitude.unit.exportToWKT isWKT2 (some "ANGLEUNIT")]
      ++ (if outputId then formatIDNodes isWKT2 m.identifiers else []))

/-- Axis-name constants used by the export code (`AxisName`,
coordinatesystem_internal.hpp, not in this snapshot; the strings are the
EPSG names the source compares against). -/
def AxisName.Latitude : String := "Latitude"

/-- The EPSG Longitude axis name. -/
def AxisName.Longitude : String := "Longitude"

/-- The EPSG Easting axis name. -/
def AxisName.Easting : String := "Easting"

/-- The EPSG Northing axis name. -/
def AxisName.Northing : String := "Northing"

/-- The EPSG ellipsoidal-height axis name. -/
def AxisName.Ellipsoidal_height : String := "Ellipsoidal height"

/-- Axis-abbreviation constant E (`AxisAbbreviation::E`). -/
def AxisAbbreviation.E : String := "E"

/-- Axis-abbreviation constant N (`AxisAbbreviation::N`). -/
def AxisAbbreviation.N : String := "N"

/-- The WKT2 axis-name convention applied by the export (lines 305-312 of
coordinatesystem.cpp): lower-case the first letter, keep the rest. -/
def lowerFirst (s : String) : String :=
  match s.data with
  | [] => ""
  | c :: cs => ⟨Char.toLower c :: cs⟩

/-- The per-axis formatter state read by the axis export: the version
plus the three output switches (`outputAxisOrder()`, `outputUnit()`,
`outputId()`) as they stand when the axis is printed (`outputUnit` is the
value pushed by the enclosing CS export). -/
structure AxisFmtState where
  isWKT2 : Bool
  outputAxisOrder : Bool
  outputUnit : Bool
  outputId : Bool
deriving DecidableEq, Repr

/-- Translation of `CoordinateSystemAxis::_exportToWKT(formatter, order,
disableAbbrev)` (coordinatesystem.cpp lines 292-365).  The successive
mutations of `axisDesignation` and `dir` are rendered as a chain of lets;
the emitted AXIS node carries, in order: the quoted designation, the
direction keyword, the meridian node when present, an ORDER node when
`outputAxisOrder()` holds and `order > 0`, a unit node when
`outputUnit()` holds and the unit kind is not NONE, and the identifier
nodes when ids are output. -/
def CoordinateSystemAxis.exportToWKT (f : AxisFmtState)
    (axis : CoordinateSystemAxis) (order : Nat)
    (disableAbbrev : Bool) : WKTEntry :=
  let axisName := axis.name
  let abbr := axis.abbreviation
  let parenthesedAbbrev := "(" ++ abbr ++ ")"
  let dir0 := axis.direction.toString
  let axisDesignation0 : String :=
    if axisName ≠ "" then
      if f.isWKT2 then lowerFirst axisName else axisName
    else ""
  let axisDesignation1 :=
    if ¬disableAbbrev ∧ f.isWKT2 = true ∧
        ¬(axisName = AxisName.Latitude ∨ axisName = AxisName.Longitude) then
      (if axisDesignation0 ≠ "" ∧ abbr ≠ "" then axisDesignation0 ++ " "
       else axisDesignation0)
        ++ (if abbr ≠ "" then parenthesedAbbrev else "")
    else axisDesignation0
  let dir :=
    if f.isWKT2 = false then
      let dirU := toupperStr dir0
      if axis.direction = .GEOCENTRIC_Z then "NORTH"
      else if axisDirectionWKT1ValueOf dirU = none then "OTHER"
      else dirU
    else dir0
  let axisDesignation :=
    if f.isWKT2 = true ∧ abbr ≠ "" then
      if axis.direction = .GEOCENTRIC_X ∨ axis.direction = .GEOCENTRIC_Y
          ∨ axis.direction = .GEOCENTRIC_Z then
        parenthesedAbbrev
      else if (order = 1 ∧ axisName = AxisName.Easting
                ∧ abbr = AxisAbbreviation.E)
          ∨ (order = 2 ∧ axisName = AxisName.Northing
                ∧ abbr = AxisAbbreviation.N) then
        parenthesedAbbrev
      else axisDesignation1
    else axisDesignation1
  .node "AXIS"
    ([.quoted axisDesignation, .str dir]
      ++ (match axis.meridian with
          | some m => [m.exportToWKT f.isWKT2 f.outputId]
          | none => [])
      ++ (if f.outputAxisOrder = true ∧ order > 0 then
            [.node "ORDER" [.num (order : ℚ)]] else [])
      ++ (if f.outputUnit = true ∧ axis.unit.type ≠ .NONE then
            [axis.unit.exportToWKT f.isWKT2 none] else [])
      ++ (if f.outputId then formatIDNodes f.isWKT2 axis.identifiers else []))

/-- The generic coordinate-system data seen by
`CoordinateSystem::_exportToWKT`: name, identifiers, ordered axis list,
and the `getWKT2Type` strings supplied by the concrete CS kind (2015 and
2018 spelling). -/
structure CoordinateSystem where
  name : String
  identifiers : List Identifier
  axisList : List CoordinateSystemAxis
  wkt2Type2015 : String
  wkt2Type2018 : String
deriving DecidableEq, Repr

/-- Translation of `getWKT2Type(use2018Keywords)` dispatch. -/
def CoordinateSystem.getWKT2Type (cs : CoordinateSystem)
    (use2018Keywords : Bool) : String :=
  if use2018Keywords then cs.wkt2Type2018 else cs.wkt2Type2015

/-- The unit of the first axis (the `unit` accumulator of the loop at
coordinatesystem.cpp lines 454-465; `UnitOfMeasure::NONE` when there is
no axis, as left by the loop). -/
def CoordinateSystem.firstAxisUnit (cs : CoordinateSystem) : UnitOfMeasure :=
  match cs.axisList with
  | [] => UnitOfMeasure.NONE
  | a :: _ => a.unit

/-- The `bAllSameUnit` flag of the loop at coordinatesystem.cpp lines
454-465: every axis unit equals the first axis unit (vacuously true for
an empty axis list, as in the source). -/
def CoordinateSystem.allSameUnit (cs : CoordinateSystem) : Bool :=
  cs.axisList.all fun a => uomEq a.unit cs.firstAxisUnit

/-- The axis loop of `CoordinateSystem::_exportToWKT` (lines 470-481):
each axis is exported with the running 1-based order counter, passed as 0
when the order annotation is suppressed (`!(isWKT2 && size > 1)`). -/
def exportAxisLoop (f : AxisFmtState) (disableAbbrev : Bool)
    (suppressOrder : Bool) : Nat → List CoordinateSystemAxis → List WKTEntry
  | _, [] => []
  | order, a :: rest =>
    a.exportToWKT f (if suppressOrder then 0 else order) disableAbbrev
      :: exportAxisLoop f disableAbbrev suppressOrder (order + 1) rest

/-- The `l_axisList.size() > 1` test of the export (line 478), as the
shape of the axis list. -/
def CoordinateSystem.sizeGt1 (cs : CoordinateSystem) : Bool :=
  match cs.axisList with
  | _ :: _ :: _ => true
  | _ => false

/-- The formatter state under which the axes of a CS are exported: the
version, `outputAxisOrder()` and `outputId()` pass through from the
formatter, and the per-axis unit switch is the value pushed at line
467-468: `isWKT2 && (!bAllSameUnit || !outputCSUnitOnlyOnceIfSame())`. -/
def CoordinateSystem.axisFmt (cfg : WKTFormatterConfig)
    (cs : CoordinateSystem) : AxisFmtState :=
  { isWKT2 := cfg.version == .WKT2
    outputAxisOrder := cfg.outputAxisOrder
    outputUnit := (cfg.version == .WKT2)
      && (!cs.allSameUnit || !cfg.outputCSUnitOnlyOnceIfSame)
    outputId := cfg.outputId }

/-- The `disableAbbrev` flag (lines 471-475): exactly 3 axes named
Latitude, Longitude, Ellipsoidal height. -/
def CoordinateSystem.disableAbbrevFlag (cs : CoordinateSystem) : Bool :=
  match cs.axisList with
  | [a0, a1, a2] =>
    a0.name == AxisName.Latitude && a1.name == AxisName.Longitude
      && a2.name == AxisName.Ellipsoidal_height
  | _ => false

/-- Translation of `CoordinateSystem::_exportToWKT` (coordinatesystem.cpp
lines 439-492).  In WKT2 the output is a CS node (type and axis count)
followed by an anonymous node holding the axis nodes and, when all axes
share a unit and the formatter outputs the CS unit only once, a single
trailing node for the common unit; in WKT1 only the axis nodes are
emitted. -/
def CoordinateSystem.exportToWKT (cfg : WKTFormatterConfig)
    (cs : CoordinateSystem) : List WKTEntry :=
  let isWKT2 : Bool := cfg.version == .WKT2
  let l := cs.axisList
  let axisNodes := exportAxisLoop (cs.axisFmt cfg) cs.disableAbbrevFlag
    (!(isWKT2 && cs.sizeGt1)) 1 l
  let trailingUnit :=
    if isWKT2 && !l.isEmpty && cs.allSameUnit && cfg.outputCSUnitOnlyOnceIfSame
    then [cs.firstAxisUnit.exportToWKT isWKT2 none]
    else []
  if isWKT2 then
    [.node "CS" [.str (cs.getWKT2Type cfg.use2018Keywords), .num l.length],
     .node "" (axisNodes ++ trailingUnit)]
  else
    axisNodes ++ trailingUnit

/-! ## Observers on WKT trees -/

/-- Whether an entry is an ORDER node. -/
def isOrderNode : WKTEntry → Bool
  | .node k _ => k == "ORDER"
  | _ => false

/-- The WKT unit-node keywords (spec §6.1). -/
def unitKeywords : List String :=
  ["LENGTHUNIT", "ANGLEUNIT", "SCALEUNIT", "TIMEUNIT", "UNIT"]

/-- Whether an entry is a unit node. -/
def isUnitNode : WKTEntry → Bool
  | .node k _ => decide (k ∈ unitKeywords)
  | _ => false

/-- The direct ORDER children of a node. -/
def orderChildren : WKTEntry → List WKTEntry
  | .node _ children => children.filter isOrderNode
  | _ => []

/-- The direct unit-node children of a node. -/
def unitChildren : WKTEntry → List WKTEntry
  | .node _ children => children.filter isUnitNode
  | _ => []

/-- The second value of a node (for an AXIS node: the direction
keyword). -/
def secondChild : WKTEntry → Option WKTEntry
  | .node _ (_ :: c :: _) => some c
  | _ => none

mutual

/-- The total number of ORDER nodes in an entry, at any depth (mutually
with the count over an entry list). -/
def WKTEntry.countOrder : WKTEntry → Nat
  | .quoted _ => 0
  | .str _ => 0
  | .num _ => 0
  | .node k children =>
    (if k = "ORDER" then 1 else 0) + countOrderList children

/-- The total number of ORDER nodes in a list of entries. -/
def countOrderList : List WKTEntry → Nat
  | [] => 0
  | e :: rest => e.countOrder + countOrderList rest

end

/-- The `i`-th axis entry of a CS export result: in WKT2 the axis nodes
are the children of the anonymous second top-level node, in WKT1 they are
the top-level entries themselves. -/
def nthAxisEntry (out : List WKTEntry) (isWKT2 : Bool) (i : Nat) :
    Option WKTEntry :=
  if isWKT2 then
    match out.get? 1 with
    | some (.node _ children) => children.get? i
    | _ => none
  else out.get? i

/-- The child count of the anonymous axis-list node of a WKT2 CS
export. -/
def anonChildCount (out : List WKTEntry) : Option Nat :=
  match out.get? 1 with
  | some (.node _ children) => some children.length
  | _ => none

/-- A concrete easting/northing Cartesian CS used by witnesses. -/
def csEN : CoordinateSystem :=
  ⟨"", [], [axEastMetre, axNorthMetre], "Cartesian", "Cartesian"⟩

/-- A concrete axis with the default-constructed NONE unit. -/
def axNoUnit : CoordinateSystemAxis :=
  ⟨"Sample", [], "", .UNSPECIFIED, UnitOfMeasure.NONE, none, none, none⟩

/-- A concrete CS mixing a metre axis with a NONE-unit axis (the axes
have differing units). -/
def csMixedUnits : CoordinateSystem :=
  ⟨"", [], [axEastMetre, axNoUnit], "Cartesian", "Cartesian"⟩

/-- A concrete latitude/longitude CS whose axes share the degree unit. -/
def csLatLon : CoordinateSystem :=
  ⟨"", [], [axLatDeg, axLonDeg], "ellipsoidal", "ellipsoidal"⟩


/-! ## The C API surface (c_api.cpp) -/

/-- The unity scale unit (factor 1, kind scale). -/
def UnitOfMeasure.SCALE_UNITY : UnitOfMeasure := ⟨"unity", 1, .SCALE⟩

/-- Modelled from the spec: the ellipsoid definition form,
`SemiMinor(Length) | InverseFlattening(Scale) | Sphere` (spec §3.1); the
defining translation unit (datum.cpp) is not in this snapshot. -/
inductive EllipsoidForm where
  | semiMinorAxis (b : Measure)
  | inverseFlattening (rf : Measure)
  | sphere
deriving DecidableEq, Repr

/-- Modelled from the spec: the Ellipsoid entity
`{ identified_object, semi_major: Length, form }` (spec §3.1). -/
structure Ellipsoid where
  name : String
  identifiers : List Identifier
  semiMajorAxis : Measure
  form : EllipsoidForm
deriving DecidableEq, Repr

/-- Modelled from the spec: `Ellipsoid::semiMinorAxis()` — the optional
stored semi-minor axis, carried exactly when the definition itself uses
the semi-minor form ("an implementer must not store both independently",
spec §3.1). -/
def Ellipsoid.semiMinorAxis (e : Ellipsoid) : Option Measure :=
  match e.form with
  | .semiMinorAxis b => some b
  | _ => none

/-- Modelled from the spec: `Ellipsoid::computeSemiMinorAxis()` — "the
semi-minor axis ... derived on demand" as a pure function of `(a, form)`
(spec §3.1, §4.3): the stored value when present; `a·(1 − 1/rf)` in the
unit of `a` for the inverse-flattening form, with the spherical branch
`1/f = 0` giving `a` itself; and `a` for a sphere. -/
def Ellipsoid.computeSemiMinorAxis (e : Ellipsoid) : Measure :=
  match e.form with
  | .semiMinorAxis b => b
  | .inverseFlattening rf =>
    if rf.getSIValue = 0 then e.semiMajorAxis
    else ⟨e.semiMajorAxis.value * (1 - 1 / rf.getSIValue),
          e.semiMajorAxis.unit⟩
  | .sphere => e.semiMajorAxis

/-- Modelled from the spec: `Ellipsoid::computeInverseFlattening()` —
derived on demand from `(a, form)`; the spherical case is "formatted as
0" (spec §4.3). -/
def Ellipsoid.computeInverseFlattening (e : Ellipsoid) : Measure :=
  match e.form with
  | .inverseFlattening rf => rf
  | .semiMinorAxis b =>
    ⟨if e.semiMajorAxis.getSIValue = b.getSIValue then 0
      else e.semiMajorAxis.getSIValue
        / (e.semiMajorAxis.getSIValue - b.getSIValue),
      UnitOfMeasure.SCALE_UNITY⟩
  | .sphere => ⟨0, UnitOfMeasure.SCALE_UNITY⟩

/-- The identified-object view of an object: optional name description
plus identifier list (the data read by `proj_obj_get_name`,
`proj_obj_get_id_auth_name`, `proj_obj_get_id_code`). -/
structure IdentifiedObjectView where
  name : Option String
  identifiers : List Identifier
deriving DecidableEq, Repr

/-- The PROJ-string dialects (`PROJStringFormatter::Convention`). -/
inductive PROJStringConvention where
  | PROJ_5
  | PROJ_4
deriving DecidableEq, Repr

/-- The object payload held by a `PJ_OBJ` (`BaseObjectNNPtr`).  The C++
discovers capabilities with `nn_dynamic_pointer_cast`; each cast target
is modelled as an optional facet.  The WKT and PROJ-string export
capabilities are modelled from the spec as pure functions per dialect
("The WKT and `+proj=…` formatters are deterministic", spec §5; io.cpp is
not in this snapshot), returning a formatted string or a
`FormattingException` message. -/
structure BaseObject where
  identified : Option IdentifiedObjectView
  ellipsoid : Option Ellipsoid
  wktExport : Option (WKTConvention → Except String String)
  projExport : Option (PROJStringConvention → Except String String)

/-- The logging state of a `PJ_CONTEXT`: the sequence of messages passed
to the context logger. -/
structure PJ_CONTEXT where
  log : List String

/-- Translation of `proj_log_error` (c_api.cpp lines 57-63): log
`function + ": " + text` on the context at error level. -/
def proj_log_error (ctx : PJ_CONTEXT) (function text : String) : PJ_CONTEXT :=
  ⟨ctx.log ++ [function ++ ": " ++ text]⟩

/-- The WKT dialects of the C API (`PJ_WKT_TYPE`). -/
inductive PJ_WKT_TYPE where
  | PJ_WKT2_2018
  | PJ_WKT2_2018_SIMPLIFIED
  | PJ_WKT2_2015
  | PJ_WKT2_2015_SIMPLIFIED
  | PJ_WKT1_GDAL
deriving DecidableEq, Repr

/-- The PROJ-string dialects of the C API (`PJ_PROJ_STRING_TYPE`). -/
inductive PJ_PROJ_STRING_TYPE where
  | PJ_PROJ_5
  | PJ_PROJ_4
deriving DecidableEq, Repr

/-- Translation of the `switch (type)` of `proj_obj_as_wkt` (c_api.cpp
lines 410-427). -/
def conventionOfWKTType : PJ_WKT_TYPE → WKTConvention
  | .PJ_WKT2_2018 => .WKT2_2018
  | .PJ_WKT2_2018_SIMPLIFIED => .WKT2_2018_SIMPLIFIED
  | .PJ_WKT2_2015 => .WKT2_2015
  | .PJ_WKT2_2015_SIMPLIFIED => .WKT2_2015_SIMPLIFIED
  | .PJ_WKT1_GDAL => .WKT1_GDAL

/-- Translation of the `switch (type)` of `proj_obj_as_proj_string`
(c_api.cpp lines 468-475). -/
def conventionOfPROJType : PJ_PROJ_STRING_TYPE → PROJStringConvention
  | .PJ_PROJ_5 => .PROJ_5
  | .PJ_PROJ_4 => .PROJ_4

/-- Translation of `struct PJ_OBJ` (c_api.cpp lines 69-81): context,
wrapped object, and the two per-dialect caches of formatted strings. -/
structure PJ_OBJ where
  ctx : PJ_CONTEXT
  obj : BaseObject
  mapWKTString : PJ_WKT_TYPE → Option String
  mapPROJString : PJ_PROJ_STRING_TYPE → Option String

/-- Translation of `proj_obj_create_from_wkt` (c_api.cpp lines 96-107).
The parser `WKTParser::createFromWKT` (io.cpp, not in this snapshot) is
passed as a function returning either an object or the thrown exception
message, following the spec: "Catch sites at the top of public factory
methods convert exceptions into error returns" (spec §9).  On success a
fresh `PJ_OBJ` with empty caches wraps the object; on exception the error
is logged and NULL (`none`) returned. -/
def proj_obj_create_from_wkt (ctx : PJ_CONTEXT)
    (createFromWKT : String → Except String BaseObject)
    (wkt : String) : PJ_CONTEXT × Option PJ_OBJ :=
  match createFromWKT wkt with
  | .ok o => (ctx, some ⟨ctx, o, fun _ => none, fun _ => none⟩)
  | .error e => (proj_log_error ctx "proj_obj_create_from_wkt" e, none)

/-- Translation of `proj_obj_create_from_proj_string` (c_api.cpp lines
122-135), with `PROJStringParser::createFromPROJString` passed as a
function (same modelling as the WKT entry point). -/
def proj_obj_create_from_proj_string (ctx : PJ_CONTEXT)
    (createFromPROJString : String → Except String BaseObject)
    (proj_string : String) : PJ_CONTEXT × Option PJ_OBJ :=
  match createFromPROJString proj_string with
  | .ok o => (ctx, some ⟨ctx, o, fun _ => none, fun _ => none⟩)
  | .error e =>
    (proj_log_error ctx "proj_obj_create_from_proj_string" e, none)

/-- Translation of `proj_obj_as_wkt` (c_api.cpp lines 398-436): return
the cached string when present; fail when the object is not WKT
exportable; otherwise format, cache the result under the requested type,
and return it, converting a formatting exception into a logged error and
NULL. -/
def proj_obj_as_wkt (obj : PJ_OBJ) (ty : PJ_WKT_TYPE) :
    PJ_OBJ × Option String :=
  match obj.mapWKTString ty with
  | some s => (obj, some s)
  | none =>
    match obj.obj.wktExport with
    | none =>
      ({ obj with ctx := (proj_log_error obj.ctx "proj_obj_as_wkt"
          "Object type not exportable to WKT") }, none)
    | some exp =>
      match exp (conventionOfWKTType ty) with
      | .ok wkt =>
        ({ obj with mapWKTString :=
            fun t => if t = ty then some wkt else obj.mapWKTString t },
         some wkt)
      | .error e =>
        ({ obj with ctx := proj_log_error obj.ctx "proj_obj_as_wkt" e },
         none)

/-- Translation of `proj_obj_as_proj_string` (c_api.cpp lines 454-485):
same caching scheme over the PROJ-string cache. -/
def proj_obj_as_proj_string (obj : PJ_OBJ) (ty : PJ_PROJ_STRING_TYPE) :
    PJ_OBJ × Option String :=
  match obj.mapPROJString ty with
  | some s => (obj, some s)
  | none =>
    match obj.obj.projExport with
    | none =>
      ({ obj with ctx := (proj_log_error obj.ctx "proj_obj_as_proj_string"
          "Object type not exportable to PROJ") }, none)
    | some exp =>
      match exp (conventionOfPROJType ty) with
      | .ok str =>
        ({ obj with mapPROJString :=
            fun t => if t = ty then some str else obj.mapPROJString t },
         some str)
      | .error e =>
        ({ obj with ctx :=
            proj_log_error obj.ctx "proj_obj_as_proj_string" e },
         none)

/-- Translation of `proj_obj_get_id_auth_name` (c_api.cpp lines 340-357):
NULL when the object is not an identified object (the error-log side
effect is not modelled on this accessor), when the index is out of range,
or when the identifier has no codespace; else the codespace.  The
in-range access uses the bound established by the preceding check,
mirroring `identifiers()[index]`. -/
def proj_obj_get_id_auth_name (obj : PJ_OBJ) (index : Int) : Option String :=
  match obj.obj.identified with
  | none => none
  | some io =>
    if index < 0 then none
    else if h : index.toNat < io.identifiers.length then
      match (io.identifiers.get ⟨index.toNat, h⟩).codeSpace with
      | none => none
      | some csp => some csp
    else none

/-- Translation of `proj_obj_get_id_code` (c_api.cpp lines 368-381): NULL
when the object is not an identified object or the index is out of range;
else the code of the identifier at that index. -/
def proj_obj_get_id_code (obj : PJ_OBJ) (index : Int) : Option String :=
  match obj.obj.identified with
  | none => none
  | some io =>
    if index < 0 then none
    else if h : index.toNat < io.identifiers.length then
      some (io.identifiers.get ⟨index.toNat, h⟩).code
    else none

/-- The identifier list of an object: empty when the object has no
identified-object view. -/
def identifiersOfObj (obj : PJ_OBJ) : List Identifier :=
  match obj.obj.identified with
  | none => []
  | some io => io.identifiers

/-- The out-parameters of `proj_obj_ellipsoid_get_parameters`. -/
structure EllipsoidParams where
  semiMajorMetre : ℚ
  semiMinorMetre : ℚ
  isSemiMinorComputed : Bool
  inverseFlattening : ℚ
deriving DecidableEq, Repr

/-- Translation of `proj_obj_ellipsoid_get_parameters` (c_api.cpp lines
638-665), with all four out-pointers requested: FALSE (`none`) when the
object is not an ellipsoid; otherwise TRUE with the semi-major axis in
metres, the computed semi-minor axis in metres, the semi-minor-computed
flag `!(semiMinorAxis().has_value())`, and the inverse flattening. -/
def proj_obj_ellipsoid_get_parameters (obj : PJ_OBJ) :
    Option EllipsoidParams :=
  match obj.obj.ellipsoid with
  | none => none
  | some e =>
    some ⟨e.semiMajorAxis.getSIValue,
          e.computeSemiMinorAxis.getSIValue,
          !(e.semiMinorAxis.isSome),
          e.computeInverseFlattening.getSIValue⟩

/-- An empty-log context for witnesses. -/
def ctx0 : PJ_CONTEXT := ⟨[]⟩

/-- The identified-object view of WGS 84 with its EPSG identifier. -/
def idViewEPSG4326 : IdentifiedObjectView :=
  ⟨some "WGS 84", [⟨some "EPSG", "4326"⟩]⟩

/-- A concrete object carrying one identifier. -/
def objWithId : PJ_OBJ :=
  ⟨ctx0, ⟨some idViewEPSG4326, none, none, none⟩,
   fun _ => none, fun _ => none⟩

/-- The WGS 84 ellipsoid in inverse-flattening form (semi-major 6378137 m,
1/f = 298.257223563). -/
def ellpsWGS84 : Ellipsoid :=
  ⟨"WGS 84", [], ⟨6378137, UnitOfMeasure.METRE⟩,
   .inverseFlattening ⟨(298257223563 : ℚ) / 1000000000,
     UnitOfMeasure.SCALE_UNITY⟩⟩

/-- A concrete object wrapping the WGS 84 ellipsoid. -/
def objEllipsoid : PJ_OBJ :=
  ⟨ctx0, ⟨none, some ellpsWGS84, none, none⟩, fun _ => none, fun _ => none⟩

/-- A concrete object whose caches are pre-populated. -/
def objCached : PJ_OBJ :=
  ⟨ctx0, ⟨none, none, none, none⟩,
   fun _ => some "cached wkt", fun _ => some "cached proj"⟩

end PROJ

namespace PROJ

/-! ## C1 -/

/-- C1 counterexample input: the claimed invariant "every CartesianCS
accepted by the factory has all axes in length units" fails — the factory
accepts two angular-unit axes and still returns an object whose axes are
not length units. -/
theorem cartesianCS_create_accepts_angular_axes :
    ¬((CartesianCS.create ⟨"CS"⟩ axLatDeg axLonDeg).axisList.all
        (fun a => a.unit.type == UnitType.LINEAR) = true) := by
  decide

/-- C1 (amended): the CartesianCS and EllipsoidalCS factories accept
exactly 2 axes (2-axis overload) or 3 axes (3-axis overload) — the axis
count is fixed by each overload's arity — and every create call succeeds
and returns an object holding precisely the given axes; no validation of
unit kinds or directions is performed. -/
theorem cs_factories_store_axes_unvalidated (p : PropertyMap)
    (a1 a2 a3 : CoordinateSystemAxis) :
    (CartesianCS.create p a1 a2).axisList = [a1, a2]
    ∧ (CartesianCS.create3 p a1 a2 a3).axisList = [a1, a2, a3]
    ∧ (EllipsoidalCS.create p a1 a2).axisList = [a1, a2]
    ∧ (EllipsoidalCS.create3 p a1 a2 a3).axisList = [a1, a2, a3] :=
  ⟨rfl, rfl, rfl, rfl⟩

/-! ## C2 -/

/-- C2: under criterion EQUIVALENT, `CoordinateSystemAxis::isEquivalentTo`
returns true if and only if the two axes have equal directions and equal
units; names, abbreviations and identifiers do not enter the comparison
(they are only consulted on the STRICT branch). -/
theorem axis_isEquivalentTo_equivalent_iff (a b : CoordinateSystemAxis) :
    a.isEquivalentTo b .EQUIVALENT = true
      ↔ (a.direction = b.direction ∧ uomEq a.unit b.unit = true) := by
  by_cases h : (a.direction == b.direction && uomEq a.unit b.unit) = true
  · have hd : a.direction = b.direction := by
      have := (Bool.and_eq_true _ _).mp h
      exact beq_iff_eq.mp this.1
    have hu : uomEq a.unit b.unit = true := ((Bool.and_eq_true _ _).mp h).2
    simp [CoordinateSystemAxis.isEquivalentTo, h, hd, hu]
  · have : ¬(a.direction = b.direction ∧ uomEq a.unit b.unit = true) := by
      intro hc
      exact h ((Bool.and_eq_true _ _).mpr ⟨beq_iff_eq.mpr hc.1, hc.2⟩)
    simp [CoordinateSystemAxis.isEquivalentTo, h, this]

/-! ## C3 -/

/-- C3: for an ellipsoidal CS with 2 or 3 axes (as every factory-built
one has), `axisOrder()` returns LAT_NORTH_LONG_EAST exactly on
directions (north, east); LAT_NORTH_LONG_EAST_HEIGHT_UP exactly on
(north, east, up); LONG_EAST_LAT_NORTH exactly on (east, north);
LONG_EAST_LAT_NORTH_HEIGHT_UP exactly on (east, north, up); and OTHER in
every other case. -/
theorem ellipsoidalCS_axisOrder_characterization (cs : EllipsoidalCS)
    (h : cs.axisList.length = 2 ∨ cs.axisList.length = 3) :
    (cs.axisOrder = .LAT_NORTH_LONG_EAST
      ↔ cs.axisList.map (·.direction) = [.NORTH, .EAST])
    ∧ (cs.axisOrder = .LAT_NORTH_LONG_EAST_HEIGHT_UP
      ↔ cs.axisList.map (·.direction) = [.NORTH, .EAST, .UP])
    ∧ (cs.axisOrder = .LONG_EAST_LAT_NORTH
      ↔ cs.axisList.map (·.direction) = [.EAST, .NORTH])
    ∧ (cs.axisOrder = .LONG_EAST_LAT_NORTH_HEIGHT_UP
      ↔ cs.axisList.map (·.direction) = [.EAST, .NORTH, .UP])
    ∧ (cs.axisOrder = .OTHER
      ↔ (cs.axisList.map (·.direction) ≠ [.NORTH, .EAST]
          ∧ cs.axisList.map (·.direction) ≠ [.NORTH, .EAST, .UP]
          ∧ cs.axisList.map (·.direction) ≠ [.EAST, .NORTH]
          ∧ cs.axisList.map (·.direction) ≠ [.EAST, .NORTH, .UP])) := by
  rcases h with h2 | h3
  · rcases List.length_eq_two.mp h2 with ⟨a0, a1, hax⟩
    by_cases hne : a0.direction = .NORTH ∧ a1.direction = .EAST
    · simp [EllipsoidalCS.axisOrder, hax, hne, hne.1, hne.2]
    · by_cases hen : a0.direction = .EAST ∧ a1.direction = .NORTH
      · simp [EllipsoidalCS.axisOrder, hax, hne, hen, hen.1, hen.2]
      · simp only [EllipsoidalCS.axisOrder, hax, if_neg hne, if_neg hen,
          List.map]
        refine ⟨?_, ?_, ?_, ?_, ?_⟩ <;> simp_all
  · rcases List.length_eq_three.mp h3 with ⟨a0, a1, a2, hax⟩
    by_cases hne : a0.direction = .NORTH ∧ a1.direction = .EAST
    · by_cases hup : a2.direction = .UP
      · simp [EllipsoidalCS.axisOrder, hax, hne, hne.1, hne.2, hup]
      · simp [EllipsoidalCS.axisOrder, hax, hne, hne.1, hne.2, hup]
    · by_cases hen : a0.direction = .EAST ∧ a1.direction = .NORTH
      · by_cases hup : a2.direction = .UP
        · simp [EllipsoidalCS.axisOrder, hax, hne, hen, hen.1, hen.2, hup]
        · simp [EllipsoidalCS.axisOrder, hax, hne, hen, hen.1, hen.2, hup]
      · simp only [EllipsoidalCS.axisOrder, hax, if_neg hne, if_neg hen,
          List.map]
        refine ⟨?_, ?_, ?_, ?_, ?_⟩ <;> simp_all

/-- C3 witness: the theorem applied to the concrete 2-axis
latitude/longitude CS, whose axis order is LAT_NORTH_LONG_EAST. -/
theorem ellipsoidalCS_axisOrder_characterization_witness :
    (EllipsoidalCS.create ⟨"cs"⟩ axLatDeg axLonDeg).axisOrder
      = .LAT_NORTH_LONG_EAST :=
  ((ellipsoidalCS_axisOrder_characterization
      (EllipsoidalCS.create ⟨"cs"⟩ axLatDeg axLonDeg)
      (Or.inl rfl)).1).mpr rfl


/-! ## WKT export lemmas -/

/-- Length preservation of the axis export loop. -/
theorem exportAxisLoop_length (f : AxisFmtState) (db so : Bool) :
    ∀ (start : Nat) (l : List CoordinateSystemAxis),
      (exportAxisLoop f db so start l).length = l.length := by
  intro start l
  induction l generalizing start with
  | nil => rfl
  | cons a rest ih => simp [exportAxisLoop, ih]

/-- Element access into the axis export loop: the `i`-th output is the
export of the `i`-th axis at order `start + i` (or 0 when suppressed). -/
theorem exportAxisLoop_get (f : AxisFmtState) (db so : Bool) :
    ∀ (l : List CoordinateSystemAxis) (start i : Nat),
      (exportAxisLoop f db so start l).get? i
        = (l.get? i).map
            (fun a => a.exportToWKT f (if so then 0 else start + i) db) := by
  intro l
  induction l with
  | nil => intro start i; simp [exportAxisLoop]
  | cons a rest ih =>
    intro start i
    cases i with
    | zero => simp [exportAxisLoop]
    | succ j =>
      have harith : start + 1 + j = start + (j + 1) := by omega
      simp only [exportAxisLoop, List.get?_cons_succ, ih (start + 1) j, harith]

/-- Identifier nodes are never ORDER nodes. -/
theorem filter_isOrderNode_formatIDNodes (b : Bool) (ids : List Identifier) :
    (formatIDNodes b ids).filter isOrderNode = [] := by
  rw [List.filter_eq_nil]
  intro e he
  simp only [formatIDNodes, List.mem_map] at he
  obtain ⟨i, _, rfl⟩ := he
  cases b <;> simp [isOrderNode]

/-- Identifier nodes are never unit nodes. -/
theorem filter_isUnitNode_formatIDNodes (b : Bool) (ids : List Identifier) :
    (formatIDNodes b ids).filter isUnitNode = [] := by
  rw [List.filter_eq_nil]
  intro e he
  simp only [formatIDNodes, List.mem_map] at he
  obtain ⟨i, _, rfl⟩ := he
  cases b <;> simp [isUnitNode, unitKeywords]

/-- A meridian node is not an ORDER node. -/
theorem isOrderNode_meridianExport (b oid : Bool) (m : Meridian) :
    isOrderNode (m.exportToWKT b oid) = false := rfl

/-- A meridian node is not a unit node. -/
theorem isUnitNode_meridianExport (b oid : Bool) (m : Meridian) :
    isUnitNode (m.exportToWKT b oid) = false := rfl

/-- A unit node (default keyword) is not an ORDER node. -/
theorem isOrderNode_unitExport_none (b : Bool) (u : UnitOfMeasure) :
    isOrderNode (u.exportToWKT b none) = false := by
  cases b
  · rfl
  · cases h : u.type <;>
      simp [UnitOfMeasure.exportToWKT, UnitOfMeasure.wkt2Keyword, isOrderNode, h]

/-- A unit node with the ANGLEUNIT keyword is not an ORDER node. -/
theorem isOrderNode_unitExport_angle (b : Bool) (u : UnitOfMeasure) :
    isOrderNode (u.exportToWKT b (some "ANGLEUNIT")) = false := by
  cases b <;> rfl

/-- A unit node (default keyword) is a unit node. -/
theorem isUnitNode_unitExport_none (b : Bool) (u : UnitOfMeasure) :
    isUnitNode (u.exportToWKT b none) = true := by
  cases b
  · rfl
  · cases h : u.type <;>
      simp [UnitOfMeasure.exportToWKT, UnitOfMeasure.wkt2Keyword, isUnitNode,
        unitKeywords, h]

/-- An ORDER node is not a unit node. -/
theorem isUnitNode_node_ORDER (c : List WKTEntry) :
    isUnitNode (WKTEntry.node "ORDER" c) = false := rfl

/-- A quoted string is not an ORDER node. -/
theorem isOrderNode_quoted (s : String) :
    isOrderNode (WKTEntry.quoted s) = false := rfl

/-- A bare keyword value is not an ORDER node. -/
theorem isOrderNode_str (s : String) :
    isOrderNode (WKTEntry.str s) = false := rfl

/-- A quoted string is not a unit node. -/
theorem isUnitNode_quoted (s : String) :
    isUnitNode (WKTEntry.quoted s) = false := rfl

/-- A bare keyword value is not a unit node. -/
theorem isUnitNode_str (s : String) :
    isUnitNode (WKTEntry.str s) = false := rfl

/-- An ORDER node is an ORDER node. -/
theorem isOrderNode_node_ORDER (c : List WKTEntry) :
    isOrderNode (WKTEntry.node "ORDER" c) = true := rfl

/-- The ORDER children of an exported AXIS node: exactly one ORDER node
with the order value when `outputAxisOrder()` holds and `order > 0`,
nothing otherwise. -/
theorem orderChildren_axisExport (f : AxisFmtState)
    (axis : CoordinateSystemAxis) (order : Nat) (db : Bool) :
    orderChildren (axis.exportToWKT f order db)
      = if f.outputAxisOrder = true ∧ order > 0
        then [WKTEntry.node "ORDER" [.num (order : ℚ)]] else [] := by
  cases hm : axis.meridian <;>
  by_cases hc : f.outputAxisOrder = true ∧ order > 0 <;>
  by_cases hu : f.outputUnit = true ∧ axis.unit.type ≠ UnitType.NONE <;>
  cases hid : f.outputId <;>
    simp [CoordinateSystemAxis.exportToWKT, orderChildren, hm, hc, hu, hid,
      List.filter_append, List.filter_cons, isOrderNode_meridianExport,
      isOrderNode_unitExport_none, filter_isOrderNode_formatIDNodes,
      isOrderNode_node_ORDER, isOrderNode_quoted, isOrderNode_str]

/-- The unit children of an exported AXIS node: exactly the axis unit
node when `outputUnit()` holds and the unit kind is not NONE, nothing
otherwise. -/
theorem unitChildren_axisExport (f : AxisFmtState)
    (axis : CoordinateSystemAxis) (order : Nat) (db : Bool) :
    unitChildren (axis.exportToWKT f order db)
      = if f.outputUnit = true ∧ axis.unit.type ≠ UnitType.NONE
        then [axis.unit.exportToWKT f.isWKT2 none] else [] := by
  cases hm : axis.meridian <;>
  by_cases hc : f.outputAxisOrder = true ∧ order > 0 <;>
  by_cases hu : f.outputUnit = true ∧ axis.unit.type ≠ UnitType.NONE <;>
  cases hid : f.outputId <;>
    simp [CoordinateSystemAxis.exportToWKT, unitChildren, hm, hc, hu, hid,
      List.filter_append, List.filter_cons, isUnitNode_meridianExport,
      isUnitNode_unitExport_none, filter_isUnitNode_formatIDNodes,
      isUnitNode_node_ORDER, isUnitNode_quoted, isUnitNode_str]

/-- Characterization of the `sizeGt1` flag. -/
theorem sizeGt1_iff (cs : CoordinateSystem) :
    cs.sizeGt1 = true ↔ 1 < cs.axisList.length := by
  rcases hl : cs.axisList with _ | ⟨a, _ | ⟨b, t⟩⟩ <;>
    simp [CoordinateSystem.sizeGt1, hl]

/-- No ORDER node appears anywhere in an identifier node list. -/
theorem countOrderList_formatIDNodes (b : Bool) (ids : List Identifier) :
    countOrderList (formatIDNodes b ids) = 0 := by
  induction ids with
  | nil => rfl
  | cons i rest ih =>
    cases b <;>
      simp_all [formatIDNodes, countOrderList, WKTEntry.countOrder]

/-- No ORDER node appears anywhere in an ANGLEUNIT unit node. -/
theorem countOrder_unitExport_angle (b : Bool) (u : UnitOfMeasure) :
    (u.exportToWKT b (some "ANGLEUNIT")).countOrder = 0 := by
  cases b <;> rfl

/-- Evaluation rule of the ORDER count on a node. -/
theorem countOrder_node (k : String) (c : List WKTEntry) :
    (WKTEntry.node k c).countOrder
      = (if k = "ORDER" then 1 else 0) + countOrderList c := by
  simp [WKTEntry.countOrder]

/-- Evaluation rule of the ORDER count on a quoted string. -/
theorem countOrder_quoted (s : String) :
    (WKTEntry.quoted s).countOrder = 0 := by
  simp [WKTEntry.countOrder]

/-- Evaluation rule of the ORDER count on a keyword value. -/
theorem countOrder_str (s : String) :
    (WKTEntry.str s).countOrder = 0 := by
  simp [WKTEntry.countOrder]

/-- Evaluation rule of the ORDER count on a numeric value. -/
theorem countOrder_num (q : ℚ) :
    (WKTEntry.num q).countOrder = 0 := by
  simp [WKTEntry.countOrder]

/-- Evaluation rule of the list ORDER count on nil. -/
theorem countOrderList_nil : countOrderList [] = 0 := by
  simp [countOrderList]

/-- Evaluation rule of the list ORDER count on cons. -/
theorem countOrderList_cons (e : WKTEntry) (l : List WKTEntry) :
    countOrderList (e :: l) = e.countOrder + countOrderList l := by
  simp [countOrderList]

/-- Concatenation rule for the ORDER count over entry lists. -/
theorem countOrderList_append (l1 l2 : List WKTEntry) :
    countOrderList (l1 ++ l2) = countOrderList l1 + countOrderList l2 := by
  induction l1 with
  | nil => simp [countOrderList]
  | cons e rest ih => simp [countOrderList, ih]; omega

/-- No ORDER node appears anywhere in a meridian node. -/
theorem countOrder_meridianExport (b oid : Bool) (m : Meridian) :
    (m.exportToWKT b oid).countOrder = 0 := by
  cases oid <;>
    simp [Meridian.exportToWKT, countOrder_node, countOrderList_cons,
      countOrderList_nil, countOrderList_append, countOrder_num,
      countOrder_unitExport_angle, countOrderList_formatIDNodes]

/-- An AXIS node exported under WKT1 flags contains no ORDER node at any
depth. -/
theorem countOrder_axisExport_wkt1 (f : AxisFmtState)
    (axis : CoordinateSystemAxis) (order : Nat) (db : Bool)
    (ho : f.outputAxisOrder = false) (hu : f.outputUnit = false) :
    (axis.exportToWKT f order db).countOrder = 0 := by
  cases hm : axis.meridian <;> cases hid : f.outputId <;>
    simp [CoordinateSystemAxis.exportToWKT, hm, hid, ho, hu,
      countOrder_node, countOrderList_cons, countOrderList_nil,
      countOrder_quoted, countOrder_str, countOrderList_append,
      countOrder_meridianExport, countOrderList_formatIDNodes]

/-- The axis loop exported under WKT1 flags contains no ORDER node. -/
theorem countOrderList_exportAxisLoop (f : AxisFmtState) (db so : Bool)
    (ho : f.outputAxisOrder = false) (hu : f.outputUnit = false) :
    ∀ (start : Nat) (l : List CoordinateSystemAxis),
      countOrderList (exportAxisLoop f db so start l) = 0 := by
  intro start l
  induction l generalizing start with
  | nil => rfl
  | cons a rest ih =>
    simp [exportAxisLoop, countOrderList, ih,
      countOrder_axisExport_wkt1 f a _ db ho hu]

/-- The ORDER annotation of the `i`-th AXIS node of a WKT2 export: the
single node `ORDER[1 + i]` exactly when the CS has more than one axis. -/
theorem order_annotation_wkt2_case (cfg : WKTFormatterConfig)
    (cs : CoordinateSystem) (i : Nat) (h : i < cs.axisList.length)
    (hv : cfg.version = .WKT2) (ho : cfg.outputAxisOrder = true) :
    Option.map orderChildren (nthAxisEntry (cs.exportToWKT cfg) true i)
      = some (if cfg.version = .WKT2 ∧ 1 < cs.axisList.length
          then [WKTEntry.node "ORDER" [.num ((1 + i : Nat) : ℚ)]] else []) := by
  have hbeq : (cfg.version == WKTVersion.WKT2) = true := by rw [hv]; rfl
  have hlen : i < (exportAxisLoop (cs.axisFmt cfg) cs.disableAbbrevFlag
      (!cs.sizeGt1) 1 cs.axisList).length := by
    rw [exportAxisLoop_length]; exact h
  simp only [CoordinateSystem.exportToWKT, hbeq, Bool.true_and, if_true,
    nthAxisEntry, List.get?_cons_succ, List.get?_cons_zero]
  rw [List.get?_append hlen, exportAxisLoop_get, List.get?_eq_get h]
  simp only [Option.map_some', orderChildren_axisExport,
    CoordinateSystem.axisFmt, ho, hv]
  by_cases hs : cs.sizeGt1 = true
  · have h1 : 1 < cs.axisList.length := (sizeGt1_iff cs).mp hs
    simp [hs, h1, Nat.lt_irrefl]
  · have h1 : ¬(1 < cs.axisList.length) := fun hx => hs ((sizeGt1_iff cs).mpr hx)
    simp [hs, h1]

/-- A WKT1 export: no ORDER child on any AXIS node and no ORDER node
anywhere in the output. -/
theorem order_annotation_wkt1_case (cfg : WKTFormatterConfig)
    (cs : CoordinateSystem) (i : Nat) (h : i < cs.axisList.length)
    (hv : cfg.version = .WKT1) (ho : cfg.outputAxisOrder = false) :
    Option.map orderChildren (nthAxisEntry (cs.exportToWKT cfg) false i)
        = some []
    ∧ countOrderList (cs.exportToWKT cfg) = 0 := by
  have hbeq : (cfg.version == WKTVersion.WKT2) = false := by rw [hv]; rfl
  have hfo : (cs.axisFmt cfg).outputAxisOrder = false := by
    simp [CoordinateSystem.axisFmt, ho]
  have hfu : (cs.axisFmt cfg).outputUnit = false := by
    simp [CoordinateSystem.axisFmt, hbeq]
  have hout : cs.exportToWKT cfg
      = exportAxisLoop (cs.axisFmt cfg) cs.disableAbbrevFlag true
          1 cs.axisList := by
    simp [CoordinateSystem.exportToWKT, hbeq]
  constructor
  · rw [hout]
    simp only [nthAxisEntry, Bool.false_eq_true, if_false]
    rw [exportAxisLoop_get, List.get?_eq_get h]
    simp [orderChildren_axisExport, hfo]
  · rw [hout]
    exact countOrderList_exportAxisLoop _ _ _ hfo hfu 1 cs.axisList

/-! ## C4 -/

/-- C4: in a WKT2 export, the `i`-th AXIS node (0-based `i`) carries
exactly the annotation `ORDER[1 + i]` — its 1-based position — if and
only if the coordinate system has more than one axis; a WKT1 export
contains no ORDER node anywhere. -/
theorem wkt_order_annotation (conv : WKTConvention) (cs : CoordinateSystem)
    (i : Nat) (h : i < cs.axisList.length) :
    (Option.map orderChildren
        (nthAxisEntry (cs.exportToWKT (WKTFormatter.create conv))
          ((WKTFormatter.create conv).version == .WKT2) i)
      = some (if (WKTFormatter.create conv).version = .WKT2
              ∧ 1 < cs.axisList.length
          then [WKTEntry.node "ORDER" [.num ((1 + i : Nat) : ℚ)]] else []))
    ∧ ((WKTFormatter.create conv).version = .WKT1 →
        countOrderList (cs.exportToWKT (WKTFormatter.create conv)) = 0) := by
  cases conv
  case WKT2_2018 =>
    exact ⟨order_annotation_wkt2_case _ cs i h rfl rfl,
      fun hv => by simp [WKTFormatter.create] at hv⟩
  case WKT2_2018_SIMPLIFIED =>
    exact ⟨order_annotation_wkt2_case _ cs i h rfl rfl,
      fun hv => by simp [WKTFormatter.create] at hv⟩
  case WKT2_2015 =>
    exact ⟨order_annotation_wkt2_case _ cs i h rfl rfl,
      fun hv => by simp [WKTFormatter.create] at hv⟩
  case WKT2_2015_SIMPLIFIED =>
    exact ⟨order_annotation_wkt2_case _ cs i h rfl rfl,
      fun hv => by simp [WKTFormatter.create] at hv⟩
  case WKT1_GDAL =>
    exact ⟨(order_annotation_wkt1_case _ cs i h rfl rfl).1,
      fun _ => (order_annotation_wkt1_case _ cs i h rfl rfl).2⟩

/-- C4 witness: the theorem applied to the 2-axis easting/northing CS
under WKT2:2015, first axis. -/
theorem wkt_order_annotation_witness :
    (Option.map orderChildren
        (nthAxisEntry (csEN.exportToWKT (WKTFormatter.create .WKT2_2015))
          ((WKTFormatter.create .WKT2_2015).version == .WKT2) 0)
      = some (if (WKTFormatter.create .WKT2_2015).version = .WKT2
              ∧ 1 < csEN.axisList.length
          then [WKTEntry.node "ORDER" [.num ((1 + 0 : Nat) : ℚ)]] else []))
    ∧ ((WKTFormatter.create .WKT2_2015).version = .WKT1 →
        countOrderList (csEN.exportToWKT (WKTFormatter.create .WKT2_2015)) = 0) :=
  wkt_order_annotation .WKT2_2015 csEN 0 (by decide)

/-! ## C5 -/

/-- C5 counterexample input: under a formatter that outputs the CS unit
only once, a CS whose axes have differing units (a metre axis and a
NONE-unit axis) exports the second AXIS node with no unit child at all —
contradicting the claim that each AXIS node then carries its own unit
node. -/
theorem wkt2_cs_unit_counterexample :
    csMixedUnits.allSameUnit = false
    ∧ Option.map unitChildren
        (nthAxisEntry
          (csMixedUnits.exportToWKT (WKTFormatter.create .WKT2_2015_SIMPLIFIED))
          true 1)
      = some [] := by
  constructor
  · rfl
  · rfl

/-- C5 (amended): for a WKT2 formatter configured to output the CS unit
only once and a CS with at least one axis: when all axes share a unit,
every AXIS node carries no unit child and the anonymous axis-list node
holds exactly one extra entry — the common-unit node — right after the
axis nodes; when the axes have differing units, no common unit node is
appended and each AXIS node carries its own unit node exactly when its
unit kind is not NONE (an axis with the NONE unit carries none). -/
theorem wkt2_cs_unit_emission (cfg : WKTFormatterConfig)
    (cs : CoordinateSystem) (hv : cfg.version = .WKT2)
    (hone : cfg.outputCSUnitOnlyOnceIfSame = true)
    (hne : cs.axisList ≠ []) :
    (cs.allSameUnit = true →
      (∀ i, i < cs.axisList.length →
        Option.map unitChildren (nthAxisEntry (cs.exportToWKT cfg) true i)
          = some [])
      ∧ nthAxisEntry (cs.exportToWKT cfg) true cs.axisList.length
          = some (cs.firstAxisUnit.exportToWKT true none)
      ∧ anonChildCount (cs.exportToWKT cfg) = some (cs.axisList.length + 1))
    ∧ (cs.allSameUnit = false →
      (∀ i, (hi : i < cs.axisList.length) →
        Option.map unitChildren (nthAxisEntry (cs.exportToWKT cfg) true i)
          = some (if (cs.axisList.get ⟨i, hi⟩).unit.type ≠ UnitType.NONE
              then [(cs.axisList.get ⟨i, hi⟩).unit.exportToWKT true none]
              else []))
      ∧ anonChildCount (cs.exportToWKT cfg) = some cs.axisList.length) := by
  have hbeq : (cfg.version == WKTVersion.WKT2) = true := by rw [hv]; rfl
  have hemp : cs.axisList.isEmpty = false := by
    cases hl : cs.axisList with
    | nil => exact absurd hl hne
    | cons a t => simp [hl]
  constructor
  · intro hsame
    have hfu : (cs.axisFmt cfg).outputUnit = false := by
      simp [CoordinateSystem.axisFmt, hbeq, hsame, hone]
    refine ⟨?_, ?_, ?_⟩
    · intro i hi
      have hlen : i < (exportAxisLoop (cs.axisFmt cfg) cs.disableAbbrevFlag
          (!cs.sizeGt1) 1 cs.axisList).length := by
        rw [exportAxisLoop_length]; exact hi
      simp only [CoordinateSystem.exportToWKT, hbeq, Bool.true_and, if_true,
        nthAxisEntry, List.get?_cons_succ, List.get?_cons_zero]
      rw [List.get?_append hlen, exportAxisLoop_get, List.get?_eq_get hi]
      simp [unitChildren_axisExport, hfu]
    · have hlen : (exportAxisLoop (cs.axisFmt cfg) cs.disableAbbrevFlag
          (!cs.sizeGt1) 1 cs.axisList).length ≤ cs.axisList.length := by
        rw [exportAxisLoop_length]
      simp only [CoordinateSystem.exportToWKT, hbeq, Bool.true_and, if_true,
        nthAxisEntry, List.get?_cons_succ, List.get?_cons_zero, hemp,
        Bool.not_false, hsame, hone, Bool.and_true, Bool.and_self]
      rw [List.get?_append_right hlen]
      simp [exportAxisLoop_length]
    · simp only [CoordinateSystem.exportToWKT, hbeq, Bool.true_and, if_true,
        anonChildCount, List.get?_cons_succ, List.get?_cons_zero, hemp,
        Bool.not_false, hsame, hone, Bool.and_true, Bool.and_self]
      simp [List.length_append, exportAxisLoop_length]
  · intro hdiff
    have hfu : (cs.axisFmt cfg).outputUnit = true := by
      simp [CoordinateSystem.axisFmt, hbeq, hdiff]
    have hfw : (cs.axisFmt cfg).isWKT2 = true := by
      simp [CoordinateSystem.axisFmt, hbeq]
    refine ⟨?_, ?_⟩
    · intro i hi
      have hlen : i < (exportAxisLoop (cs.axisFmt cfg) cs.disableAbbrevFlag
          (!cs.sizeGt1) 1 cs.axisList).length := by
        rw [exportAxisLoop_length]; exact hi
      simp only [CoordinateSystem.exportToWKT, hbeq, Bool.true_and, if_true,
        nthAxisEntry, List.get?_cons_succ, List.get?_cons_zero]
      rw [List.get?_append hlen, exportAxisLoop_get, List.get?_eq_get hi]
      simp [unitChildren_axisExport, hfu, hfw]
    · simp only [CoordinateSystem.exportToWKT, hbeq, Bool.true_and, if_true,
        anonChildCount, List.get?_cons_succ, List.get?_cons_zero, hdiff,
        Bool.false_and, Bool.and_false]
      simp [List.length_append, exportAxisLoop_length]

/-- C5 witness: the amended theorem applied to the shared-metre-unit
easting/northing CS under WKT2:2015 simplified. -/
theorem wkt2_cs_unit_emission_witness :
    nthAxisEntry
        (csEN.exportToWKT (WKTFormatter.create .WKT2_2015_SIMPLIFIED))
        true csEN.axisList.length
      = some (csEN.firstAxisUnit.exportToWKT true none) :=
  ((wkt2_cs_unit_emission (WKTFormatter.create .WKT2_2015_SIMPLIFIED) csEN
      rfl rfl (by decide)).1 (by decide)).2.1

/-! ## C9 -/

/-- C9: in a WKT1 axis export the emitted direction keyword is NORTH for
an axis directed geocentricZ; otherwise the upper-cased direction name
when that is a valid WKT1 direction keyword; and OTHER for every
direction with no WKT1 equivalent. -/
theorem wkt1_axis_direction (f : AxisFmtState)
    (axis : CoordinateSystemAxis) (order : Nat) (db : Bool)
    (hf : f.isWKT2 = false) :
    secondChild (axis.exportToWKT f order db)
      = some (.str (if axis.direction = .GEOCENTRIC_Z then "NORTH"
          else if toupperStr axis.direction.toString ∈ axisDirectionWKT1Keys
          then toupperStr axis.direction.toString
          else "OTHER")) := by
  by_cases hz : axis.direction = .GEOCENTRIC_Z <;>
  by_cases hmem : toupperStr axis.direction.toString ∈ axisDirectionWKT1Keys <;>
    simp [CoordinateSystemAxis.exportToWKT, secondChild, hf, hz, hmem,
      axisDirectionWKT1ValueOf]

/-- C9 witness: the theorem applied to the latitude axis (direction
north) under WKT1 flags: the emitted keyword is the upper-cased name. -/
theorem wkt1_axis_direction_witness :
    secondChild (axLatDeg.exportToWKT ⟨false, false, false, false⟩ 0 false)
      = some (.str (if axLatDeg.direction = .GEOCENTRIC_Z then "NORTH"
          else if toupperStr axLatDeg.direction.toString ∈ axisDirectionWKT1Keys
          then toupperStr axLatDeg.direction.toString
          else "OTHER")) :=
  wkt1_axis_direction ⟨false, false, false, false⟩ axLatDeg 0 false rfl


/-! ## C6 -/

/-- C6: on every input string for which the underlying parser raises an
exception, the entry points proj_obj_create_from_wkt and
proj_obj_create_from_proj_string catch it, log the error message on the
context, and return NULL — no object, partial or otherwise, is
returned (the model is a total function, so no exception propagates). -/
theorem create_from_string_catches (ctx : PJ_CONTEXT)
    (wktParse projParse : String → Except String BaseObject)
    (swkt sproj ewkt eproj : String)
    (hw : wktParse swkt = .error ewkt)
    (hp : projParse sproj = .error eproj) :
    (proj_obj_create_from_wkt ctx wktParse swkt).2 = none
    ∧ (proj_obj_create_from_wkt ctx wktParse swkt).1.log
        = ctx.log ++ ["proj_obj_create_from_wkt: " ++ ewkt]
    ∧ (proj_obj_create_from_proj_string ctx projParse sproj).2 = none
    ∧ (proj_obj_create_from_proj_string ctx projParse sproj).1.log
        = ctx.log ++ ["proj_obj_create_from_proj_string: " ++ eproj] := by
  simp [proj_obj_create_from_wkt, proj_obj_create_from_proj_string,
    hw, hp, proj_log_error]

/-- C6 witness: the theorem applied to a parser that always throws. -/
theorem create_from_string_catches_witness :
    (proj_obj_create_from_wkt ctx0 (fun _ => .error "parse failure")
        "GEOGCRS[").2 = none
    ∧ (proj_obj_create_from_wkt ctx0 (fun _ => .error "parse failure")
        "GEOGCRS[").1.log
        = ctx0.log ++ ["proj_obj_create_from_wkt: parse failure"]
    ∧ (proj_obj_create_from_proj_string ctx0
        (fun _ => .error "parse failure") "+proj=unknown").2 = none
    ∧ (proj_obj_create_from_proj_string ctx0
        (fun _ => .error "parse failure") "+proj=unknown").1.log
        = ctx0.log ++ ["proj_obj_create_from_proj_string: parse failure"] :=
  create_from_string_catches ctx0 (fun _ => .error "parse failure")
    (fun _ => .error "parse failure") "GEOGCRS[" "+proj=unknown"
    "parse failure" "parse failure" rfl rfl

/-! ## C7 -/

/-- C7: proj_obj_as_wkt and proj_obj_as_proj_string are deterministic
for a fixed object and requested type: a second call with the same
arguments returns the same string as the first; the first successful
result is stored in the per-type cache; and on an object whose cache
already holds a string for the type, the call returns exactly that
string and leaves the object unchanged. -/
theorem proj_obj_as_string_deterministic (obj : PJ_OBJ)
    (wt : PJ_WKT_TYPE) (pt : PJ_PROJ_STRING_TYPE) :
    ((proj_obj_as_wkt (proj_obj_as_wkt obj wt).1 wt).2
        = (proj_obj_as_wkt obj wt).2)
    ∧ (∀ s, (proj_obj_as_wkt obj wt).2 = some s →
        (proj_obj_as_wkt obj wt).1.mapWKTString wt = some s)
    ∧ (∀ s, obj.mapWKTString wt = some s →
        proj_obj_as_wkt obj wt = (obj, some s))
    ∧ ((proj_obj_as_proj_string (proj_obj_as_proj_string obj pt).1 pt).2
        = (proj_obj_as_proj_string obj pt).2)
    ∧ (∀ s, (proj_obj_as_proj_string obj pt).2 = some s →
        (proj_obj_as_proj_string obj pt).1.mapPROJString pt = some s)
    ∧ (∀ s, obj.mapPROJString pt = some s →
        proj_obj_as_proj_string obj pt = (obj, some s)) := by
  refine ⟨?_, ?_, ?_, ?_, ?_, ?_⟩
  · cases hc : obj.mapWKTString wt with
    | some s => simp [proj_obj_as_wkt, hc]
    | none =>
      cases hx : obj.obj.wktExport with
      | none => simp [proj_obj_as_wkt, hc, hx]
      | some exp =>
        cases hr : exp (conventionOfWKTType wt) with
        | ok w => simp [proj_obj_as_wkt, hc, hx, hr]
        | error e => simp [proj_obj_as_wkt, hc, hx, hr]
  · intro s hs
    cases hc : obj.mapWKTString wt with
    | some s0 =>
      have hss : s0 = s := by simpa [proj_obj_as_wkt, hc] using hs
      simp [proj_obj_as_wkt, hc, hss]
    | none =>
      cases hx : obj.obj.wktExport with
      | none => simp [proj_obj_as_wkt, hc, hx] at hs
      | some exp =>
        cases hr : exp (conventionOfWKTType wt) with
        | ok w => simp [proj_obj_as_wkt, hc, hx, hr] at hs ⊢; exact hs
        | error e => simp [proj_obj_as_wkt, hc, hx, hr] at hs
  · intro s hs
    simp [proj_obj_as_wkt, hs]
  · cases hc : obj.mapPROJString pt with
    | some s => simp [proj_obj_as_proj_string, hc]
    | none =>
      cases hx : obj.obj.projExport with
      | none => simp [proj_obj_as_proj_string, hc, hx]
      | some exp =>
        cases hr : exp (conventionOfPROJType pt) with
        | ok w => simp [proj_obj_as_proj_string, hc, hx, hr]
        | error e => simp [proj_obj_as_proj_string, hc, hx, hr]
  · intro s hs
    cases hc : obj.mapPROJString pt with
    | some s0 =>
      have hss : s0 = s := by simpa [proj_obj_as_proj_string, hc] using hs
      simp [proj_obj_as_proj_string, hc, hss]
    | none =>
      cases hx : obj.obj.projExport with
      | none => simp [proj_obj_as_proj_string, hc, hx] at hs
      | some exp =>
        cases hr : exp (conventionOfPROJType pt) with
        | ok w =>
          simp [proj_obj_as_proj_string, hc, hx, hr] at hs ⊢; exact hs
        | error e => simp [proj_obj_as_proj_string, hc, hx, hr] at hs
  · intro s hs
    simp [proj_obj_as_proj_string, hs]

/-- C7 witness: on an object whose caches are populated, both accessors
return the cached strings unchanged. -/
theorem proj_obj_as_string_deterministic_witness :
    proj_obj_as_wkt objCached .PJ_WKT2_2018 = (objCached, some "cached wkt")
    ∧ proj_obj_as_proj_string objCached .PJ_PROJ_5
        = (objCached, some "cached proj") :=
  ⟨(proj_obj_as_string_deterministic objCached .PJ_WKT2_2018
      .PJ_PROJ_5).2.2.1 "cached wkt" rfl,
   (proj_obj_as_string_deterministic objCached .PJ_WKT2_2018
      .PJ_PROJ_5).2.2.2.2.2 "cached proj" rfl⟩

/-! ## C8 -/

/-- C8: on every object wrapping an Ellipsoid,
proj_obj_ellipsoid_get_parameters succeeds, and it reports
is_semi_minor_computed TRUE exactly when the ellipsoid's definition does
not itself carry a semi-minor axis; in that case the returned semi-minor
value is the one derived from the semi-major axis and the flattening
form: `a·(1 − 1/rf)` in SI (or `a` when `1/f = 0` or the form is a
sphere). -/
theorem ellipsoid_get_parameters_spec (obj : PJ_OBJ) (e : Ellipsoid)
    (he : obj.obj.ellipsoid = some e) :
    (proj_obj_ellipsoid_get_parameters obj).isSome = true
    ∧ (∀ r, proj_obj_ellipsoid_get_parameters obj = some r →
        (r.isSemiMinorComputed = true ↔ e.semiMinorAxis = none)
        ∧ (∀ rf, e.form = .inverseFlattening rf →
            r.semiMinorMetre
              = (if rf.getSIValue = 0 then e.semiMajorAxis.getSIValue
                 else e.semiMajorAxis.getSIValue * (1 - 1 / rf.getSIValue)))
        ∧ (e.form = .sphere →
            r.semiMinorMetre = e.semiMajorAxis.getSIValue)) := by
  constructor
  · simp [proj_obj_ellipsoid_get_parameters, he]
  · intro r hr
    simp only [proj_obj_ellipsoid_get_parameters, he, Option.some.injEq] at hr
    subst hr
    refine ⟨?_, ?_, ?_⟩
    · cases hf : e.form <;>
        simp [Ellipsoid.semiMinorAxis, hf]
    · intro rf hf
      by_cases h0 : rf.getSIValue = 0
      · simp only [Ellipsoid.computeSemiMinorAxis, hf, if_pos h0]
      · simp only [Ellipsoid.computeSemiMinorAxis, hf]
        rw [if_neg h0, if_neg h0]
        simp only [Measure.getSIValue]
        ring
    · intro hf
      simp [Ellipsoid.computeSemiMinorAxis, hf]

/-- C8 witness: the theorem applied to the WGS 84 ellipsoid object, whose
definition carries an inverse flattening and no semi-minor axis. -/
theorem ellipsoid_get_parameters_spec_witness :
    (proj_obj_ellipsoid_get_parameters objEllipsoid).isSome = true
    ∧ (∀ r, proj_obj_ellipsoid_get_parameters objEllipsoid = some r →
        (r.isSemiMinorComputed = true ↔ ellpsWGS84.semiMinorAxis = none)
        ∧ (∀ rf, ellpsWGS84.form = .inverseFlattening rf →
            r.semiMinorMetre
              = (if rf.getSIValue = 0
                 then ellpsWGS84.semiMajorAxis.getSIValue
                 else ellpsWGS84.semiMajorAxis.getSIValue
                   * (1 - 1 / rf.getSIValue)))
        ∧ (ellpsWGS84.form = .sphere →
            r.semiMinorMetre = ellpsWGS84.semiMajorAxis.getSIValue)) :=
  ellipsoid_get_parameters_spec objEllipsoid ellpsWGS84 rfl

/-! ## C10 -/

/-- C10: for every object and every index that is negative or at least
the number of identifiers, proj_obj_get_id_code and
proj_obj_get_id_auth_name return NULL (the bound is checked before any
access); for an in-range index on an identified object they return the
code, respectively the codespace (NULL when absent), of the identifier
at that index. -/
theorem get_id_bounds (obj : PJ_OBJ) (index : Int) :
    ((index < 0 ∨ (identifiersOfObj obj).length ≤ index.toNat) →
      proj_obj_get_id_code obj index = none
      ∧ proj_obj_get_id_auth_name obj index = none)
    ∧ (∀ io, obj.obj.identified = some io →
        0 ≤ index → ∀ h : index.toNat < io.identifiers.length,
        proj_obj_get_id_code obj index
          = some (io.identifiers.get ⟨index.toNat, h⟩).code
        ∧ proj_obj_get_id_auth_name obj index
          = (io.identifiers.get ⟨index.toNat, h⟩).codeSpace) := by
  constructor
  · intro hout
    cases hio : obj.obj.identified with
    | none =>
      simp [proj_obj_get_id_code, proj_obj_get_id_auth_name, hio]
    | some io =>
      by_cases hneg : index < 0
      · simp [proj_obj_get_id_code, proj_obj_get_id_auth_name, hio, hneg]
      · have hge : io.identifiers.length ≤ index.toNat := by
          rcases hout with hlt | hle
          · exact absurd hlt hneg
          · simpa [identifiersOfObj, hio] using hle
        have hnb : ¬(index.toNat < io.identifiers.length) := by omega
        simp [proj_obj_get_id_code, proj_obj_get_id_auth_name, hio, hneg, hnb]
  · intro io hio hpos h
    have hneg : ¬(index < 0) := by omega
    cases hcs : (io.identifiers.get ⟨index.toNat, h⟩).codeSpace with
    | none =>
      simp only [List.get_eq_getElem] at hcs
      simp [proj_obj_get_id_code, proj_obj_get_id_auth_name, hio, hneg, h, hcs]
    | some csp =>
      simp only [List.get_eq_getElem] at hcs
      simp [proj_obj_get_id_code, proj_obj_get_id_auth_name, hio, hneg, h, hcs]

/-- C10 witness: the theorem applied to an object with one EPSG
identifier, at the in-range index 0 and the out-of-range index 5. -/
theorem get_id_bounds_witness :
    (proj_obj_get_id_code objWithId 0 = some "4326"
      ∧ proj_obj_get_id_auth_name objWithId 0 = some "EPSG")
    ∧ (proj_obj_get_id_code objWithId 5 = none
      ∧ proj_obj_get_id_auth_name objWithId 5 = none) :=
  ⟨(get_id_bounds objWithId 0).2 idViewEPSG4326 rfl (by decide) (by decide),
   (get_id_bounds objWithId 5).1 (Or.inr (by decide))⟩

end PROJ
